import Mathlib

/-!
Shallow embedding of `src/procesamiento_emisiones_cdmx_doc.py`: a pandas
pipeline that ingests CDMX air-quality CSV exports (one row per station,
pollutant, year, month with day columns D01..D31), filters columns, melts to
long format, synthesizes calendar dates, drops invalid dates, sorts, and
computes statistical summaries and monthly pivot queries.

Tables are modelled as lists of rows; a cell is a number, free text, or an
empty cell; missing values (NaN / NA / NaT) are `Option.none`; machine floats
are modelled as rationals.
-/

namespace Emisiones

/-- A cell of a source table: a numeric value, free text, or an empty cell. -/
inductive Cell where
  | num (q : ℚ)
  | text (s : String)
  | empty
  deriving DecidableEq, Repr

/-- Value of a nonempty all-digit character list, `none` otherwise. -/
def parseDigits? (cs : List Char) : Option Nat :=
  if cs ≠ [] ∧ cs.all Char.isDigit then
    some (cs.foldl (fun a c => a * 10 + (c.toNat - 48)) 0)
  else none

/-- Numeric parse of a decimal string: optional sign, integer digits, optional
fractional digits.  This is the coercion `pd.to_numeric(..., errors="coerce")`
applies to a string cell; strings that do not parse become missing. -/
def parseDecimal? (s : String) : Option ℚ :=
  let p : ℤ × List Char :=
    match s.toList with
    | '-' :: rest => (-1, rest)
    | '+' :: rest => (1, rest)
    | cs => (1, cs)
  match p.2.splitOn '.' with
  | [ip] => (parseDigits? ip).map (fun n => ((p.1 * n : ℤ) : ℚ))
  | [ip, fp] =>
    match parseDigits? ip, parseDigits? fp with
    | some n, some f =>
      some ((p.1 : ℚ) * ((n : ℚ) + (f : ℚ) / ((10 : ℚ) ^ fp.length)))
    | _, _ => none
  | _ => none

/-- `pd.to_numeric(col, errors="coerce")` on one cell: numbers pass through,
parseable text is converted, anything else becomes missing (NaN). -/
def Cell.toNumeric : Cell → Option ℚ
  | .num q => some q
  | .text s => parseDecimal? s
  | .empty => none

/-- `pd.to_numeric(col, errors="coerce").astype("Int64")` on one cell:
integral numerics survive, anything non-numeric is missing (NA). -/
def Cell.toInt (c : Cell) : Option ℤ :=
  c.toNumeric.bind (fun q => if q.den = 1 then some q.num else none)

/-- The day-column pattern: `re.fullmatch` of letter D followed by exactly two
digits (source line 127). -/
def isDayCol (s : String) : Bool :=
  match s.toList with
  | ['D', a, b] => a.isDigit && b.isDigit
  | _ => false

/-- Numeric suffix of a day column label: `int(x[1:])` (source lines 128 and
152). -/
def daySuffix (s : String) : ℤ :=
  ((parseDigits? (s.toList.drop 1)).getD 0 : ℤ)

/-- Gregorian leap year, as `pd.to_datetime` recognises it. -/
def isLeap (y : ℤ) : Bool :=
  y % 4 = 0 && (y % 100 != 0 || y % 400 = 0)

/-- Number of days of month `m` in year `y` (for `1 ≤ m ≤ 12`). -/
def daysInMonth (y m : ℤ) : ℤ :=
  if m = 2 then (if isLeap y then 29 else 28)
  else if m = 4 ∨ m = 6 ∨ m = 9 ∨ m = 11 then 30
  else 31

/-- A calendar date as stored in the FECHA column. -/
structure Fecha where
  year : ℤ
  month : ℤ
  day : ℤ
  deriving DecidableEq, Repr

/-- `pd.to_datetime(dict(year=.., month=.., day=..), errors="coerce")` for one
record (source lines 157-162): a missing year or month, or a combination that
is not a valid calendar date, coerces to missing (NaT); a valid combination
yields exactly the given (year, month, day), with no clamping. -/
def mkFecha (ano mes : Option ℤ) (dia : ℤ) : Option Fecha :=
  match ano, mes with
  | some y, some m =>
    if 1 ≤ m ∧ m ≤ 12 ∧ 1 ≤ dia ∧ dia ≤ daysInMonth y m then
      some ⟨y, m, dia⟩
    else none
  | _, _ => none

/-- A row of the filtered table (output view of `filtrar_columnas`): the four
identifier columns plus the cells of the day columns, in the order of
`FilteredTable.dayLabels`.  Station and pollutant codes are integers in the
source data. -/
structure FilteredRow where
  ESTACION : ℤ
  MAGNITUD : ℤ
  ANO : Cell
  MES : Cell
  days : List Cell
  deriving DecidableEq, Repr

/-- A filtered table: the day-column labels and the rows. -/
structure FilteredTable where
  dayLabels : List String
  rows : List FilteredRow
  deriving DecidableEq, Repr

/-- One record of the long-format table produced by `a_formato_largo`. -/
structure LongRecord where
  ESTACION : ℤ
  MAGNITUD : ℤ
  ANO : Option ℤ
  MES : Option ℤ
  DIA_STR : String
  DIA : ℤ
  VALOR : Option ℚ
  FECHA : Option Fecha
  deriving DecidableEq, Repr

/-- `a_formato_largo` (source lines 136-164): melt the day columns to rows
(`pd.melt` stacks one whole day column after another, preserving row order
within each column), parse the day index from the label, normalise ANO and MES
to nullable integers, synthesize FECHA, and coerce VALOR to numeric. -/
def a_formato_largo (t : FilteredTable) : List LongRecord :=
  (t.dayLabels.enum.filter (fun p => isDayCol p.2)).flatMap (fun p =>
    t.rows.map (fun r =>
      let ano := r.ANO.toInt
      let mes := r.MES.toInt
      let dia := daySuffix p.2
      { ESTACION := r.ESTACION, MAGNITUD := r.MAGNITUD,
        ANO := ano, MES := mes, DIA_STR := p.2, DIA := dia,
        VALOR := (r.days.getD p.1 Cell.empty).toNumeric,
        FECHA := mkFecha ano mes dia }))

/-- The FECHA column as a lexicographic sort key ((year, month, day), which is
chronological order on valid dates); a missing date has no defined key (it is
removed before any sort happens). -/
def fechaKey : Option Fecha → ℤ ×ₗ ℤ ×ₗ ℤ
  | some f => toLex (f.year, toLex (f.month, f.day))
  | none => toLex (0, toLex (0, 0))

/-- Sort key of `df.sort_values(by=["ESTACION", "MAGNITUD", "FECHA"])`:
lexicographic on the three columns. -/
def sortKey (r : LongRecord) : ℤ ×ₗ ℤ ×ₗ ℤ ×ₗ ℤ ×ₗ ℤ :=
  toLex (r.ESTACION, toLex (r.MAGNITUD, fechaKey r.FECHA))

/-- Boolean comparison used by the sort. -/
def longKeyLE (a b : LongRecord) : Bool :=
  decide (sortKey a ≤ sortKey b)

/-- `limpiar_y_ordenar` (source lines 166-170): drop rows with missing FECHA,
then sort by (ESTACION, MAGNITUD, FECHA).  A multi-column
`DataFrame.sort_values` uses `np.lexsort`, which is stable, so the sort is
modelled by the stable `List.mergeSort`. -/
def limpiar_y_ordenar (l : List LongRecord) : List LongRecord :=
  (l.filter (fun r => r.FECHA.isSome)).mergeSort longKeyLE

/-- A raw table as read from the CSV files: named columns and rows of cells
(one cell per column). -/
structure RawTable where
  cols : List String
  rows : List (List Cell)
  deriving DecidableEq, Repr

/-- The fatal errors of the pipeline: `RuntimeError` of `cargar_todo` (no
matching input file, source line 108) and `KeyError` of `filtrar_columnas`
(missing identifier columns, source line 132). -/
inductive PipeError where
  | NoInputFound (dataDir : String)
  | MissingRequiredColumns (missing : List String)
  deriving DecidableEq, Repr

/-- The four identifier columns (source lines 126 and 144). -/
def base_cols : List String := ["ESTACION", "MAGNITUD", "ANO", "MES"]

/-- Cell of column `name` in a row: the value under the first column with that
name, an empty cell when the column does not exist. -/
def getCellAt : List String → List Cell → String → Cell
  | [], _, _ => Cell.empty
  | _ :: _, [], _ => Cell.empty
  | c :: cs, x :: xs, name => if c = name then x else getCellAt cs xs name

/-- Comparison of day-column labels by numeric suffix:
`key=lambda x: int(x[1:])` (source line 128). -/
def daySuffixLE (a b : String) : Bool :=
  decide (daySuffix a ≤ daySuffix b)

/-- Day columns of a column list, sorted numerically by suffix:
`sorted([c for c in cols if re.fullmatch(...)], key=lambda x: int(x[1:]))`
(source lines 127-128).  Python `sorted` is stable, `List.mergeSort` too. -/
def sortDayCols (cs : List String) : List String :=
  (cs.filter isDayCol).mergeSort daySuffixLE

/-- `missing = [c for c in base_cols if c not in emisiones_raw.columns]`
(source line 130). -/
def missingBaseCols (t : RawTable) : List String :=
  base_cols.filter (fun c => ¬ c ∈ t.cols)

/-- `filtrar_columnas` (source lines 120-134): keep only the identifier
columns plus the numerically sorted day columns; fail with a `KeyError` naming
the missing identifier columns when any is absent. -/
def filtrar_columnas (t : RawTable) : Except PipeError RawTable :=
  let day_cols := sortDayCols t.cols
  if missingBaseCols t ≠ [] then
    .error (.MissingRequiredColumns (missingBaseCols t))
  else .ok ⟨base_cols ++ day_cols,
    t.rows.map (fun r => (base_cols ++ day_cols).map (getCellAt t.cols r))⟩

instance {ε α : Type} [DecidableEq ε] [DecidableEq α] :
    DecidableEq (Except ε α) := fun a b =>
  match a, b with
  | .ok x, .ok y => if h : x = y then .isTrue (by rw [h]) else .isFalse (by simp [h])
  | .error x, .error y => if h : x = y then .isTrue (by rw [h]) else .isFalse (by simp [h])
  | .ok _, .error _ => .isFalse (by simp)
  | .error _, .ok _ => .isFalse (by simp)

/-- The input filename pattern of `cargar_todo`: `emisiones-*.csv`
(source line 106). -/
def matchesPattern (fn : String) : Bool :=
  fn.startsWith "emisiones-" && fn.endsWith ".csv"

/-- `df["__ARCHIVO__"] = fn` (source line 113): append a provenance column
holding the source file name. -/
def addArchivo (fn : String) (t : RawTable) : RawTable :=
  ⟨t.cols ++ ["__ARCHIVO__"], t.rows.map (fun r => r ++ [Cell.text fn])⟩

/-- Column union of `pd.concat` (default `sort=False`): columns in order of
first appearance. -/
def unionCols (ts : List RawTable) : List String :=
  ts.foldl (fun acc t => acc ++ t.cols.filter (fun c => ¬ c ∈ acc)) []

/-- `pd.concat(dfs, ignore_index=True)` (source line 116): align every row to
the union of the columns (absent columns become empty cells) and stack the
rows in order. -/
def concatTables (ts : List RawTable) : RawTable :=
  let cols := unionCols ts
  ⟨cols, ts.flatMap (fun t => t.rows.map (fun r => cols.map (getCellAt t.cols r)))⟩

/-- Comparison of directory entries by file name. -/
def fileNameLE (a b : String × RawTable) : Bool :=
  decide (a.1 ≤ b.1)

/-- The directory entries whose file name matches the input pattern, in
sorted file-name order: `sorted([f for f in os.listdir(...) if ...])`
(source lines 105-106, with the tables carried along). -/
def matchedFiles (dir : List (String × RawTable)) : List (String × RawTable) :=
  (dir.filter (fun p => matchesPattern p.1)).mergeSort fileNameLE

/-- `cargar_todo` (source lines 103-118) over a modelled directory listing
(file name, parsed table).  Fails when no file matches the pattern; otherwise
tags each matching table with its file name and concatenates them in sorted
file-name order. -/
def cargar_todo (dataDir : String) (dir : List (String × RawTable)) :
    Except PipeError RawTable :=
  if matchedFiles dir = [] then .error (.NoInputFound dataDir)
  else .ok (concatTables ((matchedFiles dir).map (fun p => addArchivo p.1 p.2)))

/-- Mean of a list of values; the mean of an empty group is missing (NaN). -/
def meanOpt (vs : List ℚ) : Option ℚ :=
  if vs = [] then none else some (vs.sum / (vs.length : ℚ))

/-- Square of the sample standard deviation (`Series.std`, `ddof=1`): the
sample variance.  The standard deviation itself is its real square root,
which is irrational in general; all definedness/missingness questions are
identical for the two.  Missing (NaN) for groups of fewer than two values. -/
def stdSqOpt (vs : List ℚ) : Option ℚ :=
  if vs.length < 2 then none
  else
    let m := vs.sum / (vs.length : ℚ)
    some ((vs.map (fun x => (x - m) ^ 2)).sum / ((vs.length : ℚ) - 1))

/-- One row of `resumen_estadistico`: the group key and the five statistics
(`desv_std_sq` carries the square of the `std` column). -/
structure SummaryRow where
  ESTACION : ℤ
  MAGNITUD : ℤ
  count : ℕ
  promedio : Option ℚ
  desv_std_sq : Option ℚ
  vmin : Option ℚ
  vmax : Option ℚ
  deriving DecidableEq, Repr

/-- The distinct (ESTACION, MAGNITUD) keys of a long table, in ascending
order (`groupby` sorts group keys by default). -/
def groupKeys (l : List LongRecord) : List (ℤ × ℤ) :=
  ((l.map (fun r => (r.ESTACION, r.MAGNITUD))).dedup).mergeSort
    (fun a b => decide (toLex a ≤ toLex b))

/-- The non-missing VALOR entries of the (ESTACION, MAGNITUD) group `k`
(aggregations over a column skip NaN). -/
def groupVals (l : List LongRecord) (k : ℤ × ℤ) : List ℚ :=
  (l.filter (fun r => r.ESTACION = k.1 ∧ r.MAGNITUD = k.2)).filterMap
    (fun r => r.VALOR)

/-- `resumen_estadistico` (source lines 172-180): group by
(ESTACION, MAGNITUD) and aggregate count / mean / std / min / max of VALOR,
NaN entries excluded; `count` of an all-missing group is 0 and its other
statistics are missing. -/
def resumen_estadistico (l : List LongRecord) : List SummaryRow :=
  (groupKeys l).map (fun k =>
    let vs := groupVals l k
    { ESTACION := k.1, MAGNITUD := k.2, count := vs.length,
      promedio := meanOpt vs, desv_std_sq := stdSqOpt vs,
      vmin := vs.min?, vmax := vs.max? })

/-- `medias_mensuales_por_contaminante_y_ano` (source lines 183-198): filter
to one pollutant and year, group by (ESTACION, MES) and average VALOR, then
pivot to a station × month matrix.  The matrix is modelled by its defined
cells: one entry per (station, month) group present in the filtered set; a
group whose values are all missing has a missing (NaN) cell. -/
def medias_mensuales_por_contaminante_y_ano (l : List LongRecord)
    (contaminante ano : ℤ) : List ((ℤ × ℤ) × Option ℚ) :=
  let tmp := l.filter (fun r => r.MAGNITUD = contaminante ∧ r.ANO = some ano)
  let keys := ((tmp.filterMap
      (fun r => r.MES.map (fun m => (r.ESTACION, m)))).dedup).mergeSort
    (fun a b => decide (toLex a ≤ toLex b))
  keys.map (fun k =>
    (k, meanOpt ((tmp.filter
      (fun r => r.ESTACION = k.1 ∧ r.MES = some k.2)).filterMap
      (fun r => r.VALOR))))

/-- `medidas_mensuales_por_estacion` (source lines 200-217): filter to one
station (and optionally one year), group by (ANO, MES, MAGNITUD) and average
VALOR, then pivot to a (year, month) × pollutant matrix, modelled by its
defined cells. -/
def medidas_mensuales_por_estacion (l : List LongRecord) (estacion : ℤ)
    (ano : Option ℤ) : List ((ℤ × ℤ × ℤ) × Option ℚ) :=
  let tmp0 := l.filter (fun r => r.ESTACION = estacion)
  let tmp : List LongRecord := match ano with
    | some a => tmp0.filter (fun r => r.ANO = some a)
    | none => tmp0
  let keys := ((tmp.filterMap (fun (r : LongRecord) =>
      r.ANO.bind (fun a => r.MES.map (fun m => (a, m, r.MAGNITUD))))).dedup).mergeSort
    (fun (a b : ℤ × ℤ × ℤ) =>
      decide (toLex (a.1, toLex a.2) ≤ toLex (b.1, toLex b.2)))
  keys.map (fun k =>
    (k, meanOpt ((tmp.filter (fun r =>
      r.ANO = some k.1 ∧ r.MES = some k.2.1 ∧ r.MAGNITUD = k.2.2)).filterMap
      (fun r => r.VALOR))))

/-! ### Concrete demonstration inputs -/

/-- A raw table with the four identifiers, unsorted day columns and one
extraneous column. -/
def demoRaw6 : RawTable :=
  ⟨["ESTACION", "MAGNITUD", "ANO", "MES", "D10", "PROVINCIA", "D02", "D01"],
   [[Cell.num 1, Cell.num 1, Cell.num 2016, Cell.num 1,
     Cell.num 4, Cell.text "x", Cell.num 5, Cell.num 6]]⟩

/-- A modelled input directory: two matching files (listed out of order) and
one non-matching file, all with the same one-column schema. -/
def demoDir : List (String × RawTable) :=
  [("emisiones-2017.csv", ⟨["A"], [[Cell.num 2]]⟩),
   ("otro.txt", ⟨["A"], [[Cell.num 9]]⟩),
   ("emisiones-2016.csv", ⟨["A"], [[Cell.num 1]]⟩)]

/-- A filtered table with a valid day column and an out-of-range one (D32),
a non-numeric value cell and an empty cell. -/
def demoFT : FilteredTable :=
  ⟨["D01", "D32"],
   [⟨7, 1, Cell.num 2016, Cell.num 1, [Cell.num 10, Cell.num 3]⟩,
    ⟨3, 1, Cell.num 2016, Cell.num 2, [Cell.empty, Cell.text "x"]⟩]⟩

/-- Long records containing two records with identical sort keys (different
VALOR) and one record with a missing date. -/
def demoLongC1 : List LongRecord :=
  [⟨2, 1, some 2016, some 1, "D01", 1, some 5, some ⟨2016, 1, 1⟩⟩,
   ⟨1, 1, some 2016, some 1, "D01", 1, some 10, some ⟨2016, 1, 1⟩⟩,
   ⟨1, 1, some 2016, some 2, "D30", 30, some 44, none⟩,
   ⟨1, 1, some 2016, some 1, "D01", 1, some 20, some ⟨2016, 1, 1⟩⟩]

/-- First of two records of `demoLongC1` sharing one sort key. -/
def demoRecA : LongRecord :=
  ⟨1, 1, some 2016, some 1, "D01", 1, some 10, some ⟨2016, 1, 1⟩⟩

/-- Second of two records of `demoLongC1` sharing one sort key. -/
def demoRecB : LongRecord :=
  ⟨1, 1, some 2016, some 1, "D01", 1, some 20, some ⟨2016, 1, 1⟩⟩

/-- Long records with a (1, 1) group whose values are [10, 20, 30] and a
(2, 5) group whose values are all missing. -/
def demoLongC5 : List LongRecord :=
  [⟨1, 1, some 2016, some 1, "D01", 1, some 10, some ⟨2016, 1, 1⟩⟩,
   ⟨1, 1, some 2016, some 1, "D02", 2, some 20, some ⟨2016, 1, 2⟩⟩,
   ⟨1, 1, some 2016, some 1, "D03", 3, some 30, some ⟨2016, 1, 3⟩⟩,
   ⟨2, 5, some 2016, some 1, "D01", 1, none, some ⟨2016, 1, 1⟩⟩]

/-! ### Theorems -/

theorem longKeyLE_trans (a b c : LongRecord) :
    longKeyLE a b → longKeyLE b c → longKeyLE a c := by
  simp only [longKeyLE, decide_eq_true_eq]
  exact le_trans

theorem longKeyLE_total (a b : LongRecord) :
    longKeyLE a b || longKeyLE b a := by
  simp only [longKeyLE, Bool.or_eq_true, decide_eq_true_eq]
  exact le_total _ _

theorem daySuffixLE_trans (a b c : String) :
    daySuffixLE a b → daySuffixLE b c → daySuffixLE a c := by
  simp only [daySuffixLE, decide_eq_true_eq]
  exact le_trans

theorem daySuffixLE_total (a b : String) :
    daySuffixLE a b || daySuffixLE b a := by
  simp only [daySuffixLE, Bool.or_eq_true, decide_eq_true_eq]
  exact le_total _ _

theorem fileNameLE_trans (a b c : String × RawTable) :
    fileNameLE a b → fileNameLE b c → fileNameLE a c := by
  simp only [fileNameLE, decide_eq_true_eq]
  exact le_trans

theorem fileNameLE_total (a b : String × RawTable) :
    fileNameLE a b || fileNameLE b a := by
  simp only [fileNameLE, Bool.or_eq_true, decide_eq_true_eq]
  exact le_total _ _

/-- Every month has at most 31 days. -/
theorem daysInMonth_le_31 (y m : ℤ) : daysInMonth y m ≤ 31 := by
  unfold daysInMonth
  split
  · split <;> omega
  · split <;> omega

/-- C3: Date synthesis in `a_formato_largo` assigns a missing date (never
raises, never clamps to a nearby valid date) whenever year, month, day do not
form a valid calendar date or year/month are non-numeric; in particular
(2021, 2, 30) yields a missing date while (2020, 2, 29) yields a valid one. -/
theorem C3_date_synthesis :
    (∀ (ano mes : Option ℤ) (dia : ℤ),
      (mkFecha ano mes dia = none ↔
        ¬ ∃ y m, ano = some y ∧ mes = some m ∧
          1 ≤ m ∧ m ≤ 12 ∧ 1 ≤ dia ∧ dia ≤ daysInMonth y m) ∧
      (∀ f, mkFecha ano mes dia = some f →
        ano = some f.year ∧ mes = some f.month ∧ dia = f.day)) ∧
    (∀ s : String, parseDecimal? s = none → Cell.toInt (Cell.text s) = none) ∧
    mkFecha (some 2021) (some 2) 30 = none ∧
    mkFecha (some 2020) (some 2) 29 = some ⟨2020, 2, 29⟩ := by
  refine ⟨?_, ?_, by decide, by decide⟩
  · intro ano mes dia
    constructor
    · match ano, mes with
      | none, none => simp [mkFecha]
      | none, some m => simp [mkFecha]
      | some y, none => simp [mkFecha]
      | some y, some m =>
        simp only [mkFecha]
        split
        · rename_i h
          constructor
          · intro hc; exact absurd hc (by simp)
          · intro hc
            exact absurd ⟨y, m, rfl, rfl, h.1, h.2.1, h.2.2.1, h.2.2.2⟩ hc
        · rename_i h
          refine ⟨fun _ => ?_, fun _ => rfl⟩
          rintro ⟨y', m', hy, hm, h1, h2, h3, h4⟩
          cases hy; cases hm
          exact h ⟨h1, h2, h3, h4⟩
    · intro f hf
      match ano, mes with
      | none, none => exact absurd hf (by simp [mkFecha])
      | none, some m => exact absurd hf (by simp [mkFecha])
      | some y, none => exact absurd hf (by simp [mkFecha])
      | some y, some m =>
        simp only [mkFecha] at hf
        split at hf
        · cases hf; exact ⟨rfl, rfl, rfl⟩
        · cases hf
  · intro s hs
    simp [Cell.toInt, Cell.toNumeric, hs]

/-- Witness for C3 at concrete inputs. -/
theorem C3_date_synthesis_witness :
    mkFecha none (some 1) 1 = none ∧
    Cell.toInt (Cell.text "abc") = none ∧
    mkFecha (some 2021) (some 2) 30 = none ∧
    mkFecha (some 2020) (some 2) 29 = some ⟨2020, 2, 29⟩ :=
  ⟨(C3_date_synthesis.1 none (some 1) 1).1.mpr (by simp),
   C3_date_synthesis.2.1 "abc" (by decide),
   C3_date_synthesis.2.2.1,
   C3_date_synthesis.2.2.2⟩

/-- C6: On any input table containing the four identifier columns,
`filtrar_columnas` returns a table whose columns are exactly the four
identifiers followed by the day columns sorted numerically by suffix
(a permutation of the day columns of the input), and no other source column
leaks through. -/
theorem C6_filtrar_columnas_ok (t : RawTable)
    (h : ∀ c ∈ base_cols, c ∈ t.cols) :
    ∃ t', filtrar_columnas t = .ok t' ∧
      t'.cols = base_cols ++ sortDayCols t.cols ∧
      (sortDayCols t.cols).Pairwise (fun a b => daySuffix a ≤ daySuffix b) ∧
      (sortDayCols t.cols).Perm (t.cols.filter isDayCol) ∧
      (∀ c ∈ t'.cols, c ∈ base_cols ∨ isDayCol c = true) := by
  have hm : missingBaseCols t = [] := by
    simp only [missingBaseCols, List.filter_eq_nil_iff, decide_not,
      Bool.not_eq_true', decide_eq_false_iff_not, not_not]
    exact h
  refine ⟨⟨base_cols ++ sortDayCols t.cols,
    t.rows.map (fun r => (base_cols ++ sortDayCols t.cols).map (getCellAt t.cols r))⟩,
    by simp [filtrar_columnas, hm], rfl, ?_, ?_, ?_⟩
  · have hp := List.sorted_mergeSort daySuffixLE_trans daySuffixLE_total
      (t.cols.filter isDayCol)
    exact hp.imp (fun h => by simpa [daySuffixLE] using h)
  · exact List.mergeSort_perm _ _
  · intro c hc
    rcases List.mem_append.mp hc with hb | hd
    · exact Or.inl hb
    · exact Or.inr (List.of_mem_filter
        ((List.mem_mergeSort).mp hd))

/-- Witness for C6: the day columns [D10, D02, D01] are reordered
[D01, D02, D10]. -/
theorem C6_filtrar_columnas_ok_witness :
    ((∀ c ∈ base_cols, c ∈ demoRaw6.cols) ∧
      ∃ t', filtrar_columnas demoRaw6 = .ok t' ∧
        t'.cols = base_cols ++ sortDayCols demoRaw6.cols ∧
        (sortDayCols demoRaw6.cols).Pairwise
          (fun a b => daySuffix a ≤ daySuffix b) ∧
        (sortDayCols demoRaw6.cols).Perm (demoRaw6.cols.filter isDayCol) ∧
        (∀ c ∈ t'.cols, c ∈ base_cols ∨ isDayCol c = true)) ∧
    sortDayCols ["D10", "D02", "D01"] = ["D01", "D02", "D10"] :=
  ⟨⟨by decide, C6_filtrar_columnas_ok demoRaw6 (by decide)⟩,
   by with_unfolding_all decide⟩

/-- C7: `filtrar_columnas` fails with a `MissingRequiredColumns` error naming
every missing identifier column if and only if at least one of the four
identifier columns is absent; on failure no output table is produced. -/
theorem C7_filtrar_columnas_error (t : RawTable) :
    (filtrar_columnas t =
        .error (.MissingRequiredColumns (missingBaseCols t)) ↔
      ∃ c ∈ base_cols, ¬ c ∈ t.cols) ∧
    (∀ c, c ∈ missingBaseCols t ↔ c ∈ base_cols ∧ ¬ c ∈ t.cols) ∧
    ((∃ c ∈ base_cols, ¬ c ∈ t.cols) → ∀ t', filtrar_columnas t ≠ .ok t') := by
  have hchar : missingBaseCols t ≠ [] ↔ ∃ c ∈ base_cols, ¬ c ∈ t.cols := by
    simp only [missingBaseCols, ne_eq, List.filter_eq_nil_iff, decide_not,
      Bool.not_eq_true', decide_eq_false_iff_not, not_not, not_forall]
    constructor
    · rintro ⟨c, hc, hn⟩; exact ⟨c, hc, hn⟩
    · rintro ⟨c, hc, hn⟩; exact ⟨c, hc, hn⟩
  refine ⟨?_, ?_, ?_⟩
  · constructor
    · intro he
      by_contra hc
      have hnil : missingBaseCols t = [] := by
        by_contra hne
        exact hc (hchar.mp hne)
      simp [filtrar_columnas, hnil] at he
    · intro he
      have hne := hchar.mpr he
      simp [filtrar_columnas, hne]
  · intro c
    simp only [missingBaseCols, List.mem_filter, decide_not,
      Bool.not_eq_true', decide_eq_false_iff_not]
  · intro he t'
    have hne := hchar.mpr he
    simp [filtrar_columnas, hne]

/-- Witness for C7: a table with only ESTACION and MES lacks MAGNITUD and
ANO, and `filtrar_columnas` reports exactly those. -/
theorem C7_filtrar_columnas_error_witness :
    (filtrar_columnas ⟨["ESTACION", "MES"], []⟩ =
        .error (.MissingRequiredColumns
          (missingBaseCols ⟨["ESTACION", "MES"], []⟩)) ↔
      ∃ c ∈ base_cols, ¬ c ∈ (RawTable.mk ["ESTACION", "MES"] []).cols) ∧
    missingBaseCols ⟨["ESTACION", "MES"], []⟩ = ["MAGNITUD", "ANO"] :=
  ⟨(C7_filtrar_columnas_error ⟨["ESTACION", "MES"], []⟩).1,
   by with_unfolding_all decide⟩

/-- Selecting every column of a duplicate-free schema from a row of matching
width recovers the row. -/
theorem map_getCellAt_self : ∀ (cols : List String) (row : List Cell),
    cols.Nodup → row.length = cols.length →
    cols.map (getCellAt cols row) = row
  | [], row, _, hlen => by
    have h0 : row = [] := List.length_eq_zero.mp hlen
    simp [h0]
  | c :: cs, [], _, hlen => by simp at hlen
  | c :: cs, x :: xs, hnd, hlen => by
    simp only [List.map_cons]
    have hc : getCellAt (c :: cs) (x :: xs) c = x := by simp [getCellAt]
    have ht : cs.map (getCellAt (c :: cs) (x :: xs)) =
        cs.map (getCellAt cs xs) := by
      apply List.map_congr_left
      intro a ha
      have hne : ¬ c = a := fun he => (List.nodup_cons.mp hnd).1 (he ▸ ha)
      simp [getCellAt, hne]
    rw [hc, ht, map_getCellAt_self cs xs (List.nodup_cons.mp hnd).2
      (by simpa using hlen)]

/-- Folding further tables whose columns are already contained in the
accumulator leaves the accumulator unchanged. -/
theorem unionCols_foldl_fixed (D : List String) :
    ∀ (ts : List RawTable) (acc : List String), (∀ c ∈ D, c ∈ acc) →
      (∀ t ∈ ts, t.cols = D) →
      ts.foldl (fun acc t => acc ++ t.cols.filter (fun c => ¬ c ∈ acc)) acc
        = acc := by
  intro ts
  induction ts with
  | nil => intro acc _ _; rfl
  | cons t ts ih =>
    intro acc hsub hall
    have hcols : t.cols = D := hall t (by simp)
    have hfil : t.cols.filter (fun c => decide (¬ c ∈ acc)) = [] := by
      rw [hcols]
      simp only [List.filter_eq_nil_iff, decide_not, Bool.not_eq_true',
        decide_eq_false_iff_not, not_not]
      exact hsub
    simp only [List.foldl_cons, hfil, List.append_nil]
    exact ih acc hsub (fun u hu => hall u (by simp [hu]))

/-- When every table of a nonempty list shares the schema `D`, the column
union is `D`. -/
theorem unionCols_const (D : List String) (ts : List RawTable)
    (hne : ts ≠ []) (hall : ∀ t ∈ ts, t.cols = D) :
    unionCols ts = D := by
  cases ts with
  | nil => exact absurd rfl hne
  | cons t ts =>
    have hcols : t.cols = D := hall t (by simp)
    have h0 : t.cols.filter (fun c => decide (¬ c ∈ ([] : List String)))
        = t.cols := by
      simp
    unfold unionCols
    simp only [List.foldl_cons, h0, List.nil_append]
    rw [hcols]
    exact unionCols_foldl_fixed D ts D (fun c hc => hc)
      (fun u hu => hall u (by simp [hu]))

/-- C8: `cargar_todo` fails with a fatal NoInputFound error if and only if no
directory entry matches the `emisiones-*.csv` pattern, and the failure yields
no table; when files match, they are processed in sorted file-name order:
the output rows are the rows of the matching files, each tagged with its file
name, stacked file by file in ascending file-name order. -/
theorem C8_cargar_todo (dd : String) (dir : List (String × RawTable))
    (C : List String)
    (hC : ∀ p ∈ dir, (p.2).cols = C) (hnd : C.Nodup)
    (hA : ¬ "__ARCHIVO__" ∈ C)
    (hlen : ∀ p ∈ dir, ∀ r ∈ (p.2).rows, r.length = C.length) :
    (cargar_todo dd dir = .error (.NoInputFound dd) ↔
      dir.filter (fun p => matchesPattern p.1) = []) ∧
    (∀ e, cargar_todo dd dir = .error e → e = .NoInputFound dd) ∧
    (∀ t, cargar_todo dd dir = .ok t →
      t.rows = (matchedFiles dir).flatMap
        (fun p => (p.2).rows.map (fun r => r ++ [Cell.text p.1])) ∧
      (matchedFiles dir).Pairwise (fun a b => a.1 ≤ b.1) ∧
      (matchedFiles dir).Perm (dir.filter (fun p => matchesPattern p.1))) := by
  have hperm : (matchedFiles dir).Perm
      (dir.filter (fun p => matchesPattern p.1)) :=
    List.mergeSort_perm _ _
  have hlen2 := hperm.length_eq
  have hempty : matchedFiles dir = [] ↔
      dir.filter (fun p => matchesPattern p.1) = [] := by
    constructor
    · intro h
      have h0 : (dir.filter (fun p => matchesPattern p.1)).length = 0 := by
        rw [← hlen2, h]; rfl
      exact List.length_eq_zero.mp h0
    · intro h
      have h0 : (matchedFiles dir).length = 0 := by
        rw [hlen2, h]; rfl
      exact List.length_eq_zero.mp h0
  refine ⟨?_, ?_, ?_⟩
  · constructor
    · intro he
      by_contra hne
      have hm : ¬ matchedFiles dir = [] := fun h => hne (hempty.mp h)
      simp [cargar_todo, hm] at he
    · intro he
      have hm : matchedFiles dir = [] := hempty.mpr he
      simp [cargar_todo, hm]
  · intro e he
    by_cases hm : matchedFiles dir = []
    · rw [cargar_todo, if_pos hm] at he
      exact (Except.error.inj he).symm
    · rw [cargar_todo, if_neg hm] at he
      exact absurd he (by simp)
  · intro t ht
    by_cases hm : matchedFiles dir = []
    · rw [cargar_todo, if_pos hm] at ht
      exact absurd ht (by simp)
    · rw [cargar_todo, if_neg hm] at ht
      replace ht := Except.ok.inj ht
      refine ⟨?_, ?_, hperm⟩
      · have hmem : ∀ p ∈ matchedFiles dir, p ∈ dir := by
          intro p hp
          exact (List.mem_filter.mp (List.mem_mergeSort.mp hp)).1
        have hcolsT : ∀ u ∈ (matchedFiles dir).map
            (fun p => addArchivo p.1 p.2),
            u.cols = C ++ ["__ARCHIVO__"] := by
          intro u hu
          obtain ⟨p, hp, rfl⟩ := List.mem_map.mp hu
          simp [addArchivo, hC p (hmem p hp)]
        have hneT : (matchedFiles dir).map (fun p => addArchivo p.1 p.2)
            ≠ [] := by
          simpa using hm
        have hunion : unionCols ((matchedFiles dir).map
            (fun p => addArchivo p.1 p.2)) = C ++ ["__ARCHIVO__"] :=
          unionCols_const _ _ hneT hcolsT
        have hndA : (C ++ ["__ARCHIVO__"]).Nodup := by
          refine List.Nodup.append hnd (by simp) ?_
          intro a ha hb
          rw [List.mem_singleton.mp hb] at ha
          exact hA ha
        rw [← ht]
        simp only [concatTables, hunion, List.flatMap_def, List.map_map]
        congr 1
        apply List.map_congr_left
        intro p hp
        simp only [Function.comp, addArchivo, List.map_map]
        apply List.map_congr_left
        intro r hr
        have hrl : (r ++ [Cell.text p.1]).length
            = (C ++ ["__ARCHIVO__"]).length := by
          simp [hlen p (hmem p hp) r hr]
        simp only [Function.comp, hC p (hmem p hp)]
        exact map_getCellAt_self _ _ hndA hrl
      · have hp := List.sorted_mergeSort fileNameLE_trans fileNameLE_total
          (dir.filter (fun p => matchesPattern p.1))
        exact hp.imp (fun h => by simpa [fileNameLE] using h)

set_option maxRecDepth 40000 in
/-- Witness for C8: the demonstration directory has two matching files listed
out of order and one non-matching file; loading succeeds, the rows are
tagged and stacked in ascending file-name order, and the error case is
characterised. -/
theorem C8_cargar_todo_witness :
    ((cargar_todo "dd" demoDir = .error (.NoInputFound "dd") ↔
        demoDir.filter (fun p => matchesPattern p.1) = []) ∧
      (∀ t, cargar_todo "dd" demoDir = .ok t →
        t.rows = (matchedFiles demoDir).flatMap
          (fun p => (p.2).rows.map (fun r => r ++ [Cell.text p.1])) ∧
        (matchedFiles demoDir).Pairwise (fun a b => a.1 ≤ b.1) ∧
        (matchedFiles demoDir).Perm
          (demoDir.filter (fun p => matchesPattern p.1)))) ∧
    (cargar_todo "dd" demoDir = .ok
      ⟨["A", "__ARCHIVO__"],
       [[Cell.num 1, Cell.text "emisiones-2016.csv"],
        [Cell.num 2, Cell.text "emisiones-2017.csv"]]⟩) ∧
    cargar_todo "dd" [] = .error (.NoInputFound "dd") :=
  ⟨⟨(C8_cargar_todo "dd" demoDir ["A"] (by with_unfolding_all decide)
        (by decide) (by decide) (by with_unfolding_all decide)).1,
    (C8_cargar_todo "dd" demoDir ["A"] (by with_unfolding_all decide)
        (by decide) (by decide) (by with_unfolding_all decide)).2.2⟩,
   by with_unfolding_all decide,
   by with_unfolding_all decide⟩

/-- C2: For every filtered table (all day labels match the day-column
pattern), `a_formato_largo` produces exactly one long record per
(row, day column) pair, and cell coercion is total: a cell yields a missing
VALOR exactly when it is empty or does not parse as a number, never an
error. -/
theorem C2_reshape (t : FilteredTable)
    (hday : ∀ lbl ∈ t.dayLabels, isDayCol lbl = true) :
    (a_formato_largo t).length = t.rows.length * t.dayLabels.length ∧
    (∀ c : Cell, c.toNumeric = none ↔
      (c = Cell.empty ∨ ∃ s, c = Cell.text s ∧ parseDecimal? s = none)) := by
  constructor
  · unfold a_formato_largo
    have hf : t.dayLabels.enum.filter (fun p => isDayCol p.2)
        = t.dayLabels.enum := by
      apply List.filter_eq_self.mpr
      intro p hp
      have hpm : p.2 ∈ t.dayLabels := by
        have h2 := List.enumFrom_map_snd 0 t.dayLabels
        rw [← List.enum_eq_enumFrom] at h2
        exact h2 ▸ List.mem_map_of_mem Prod.snd hp
      exact hday _ hpm
    rw [hf, List.flatMap_def, List.length_flatten, List.map_map]
    simp only [Function.comp_def, List.length_map]
    rw [List.map_const', List.sum_replicate, smul_eq_mul,
      List.enum_length, Nat.mul_comm]
  · intro c
    cases c with
    | num q => simp [Cell.toNumeric]
    | text s => simp [Cell.toNumeric]
    | empty => simp [Cell.toNumeric]

/-- Witness for C2: the demonstration table has 2 rows and 2 day columns and
yields 4 long records; the non-numeric and empty cells give missing VALOR. -/
theorem C2_reshape_witness :
    ((∀ lbl ∈ demoFT.dayLabels, isDayCol lbl = true) ∧
      (a_formato_largo demoFT).length
        = demoFT.rows.length * demoFT.dayLabels.length) ∧
    (a_formato_largo demoFT).map (fun r => r.VALOR)
      = [some 10, none, some 3, none] :=
  ⟨⟨by decide, (C2_reshape demoFT (by decide)).1⟩,
   by with_unfolding_all decide⟩

/-- C1: The Cleaner/Sorter sorts by (ESTACION, MAGNITUD, FECHA) ascending and
is stable: two records with equal sort keys that appear in a given order
among the surviving (valid-date) records appear in the same order in the
output, and the output is a permutation of the surviving records. -/
theorem C1_sort_stable (l : List LongRecord) (a b : LongRecord)
    (hk : sortKey a = sortKey b)
    (hsub : List.Sublist [a, b] (l.filter (fun r => r.FECHA.isSome))) :
    List.Sublist [a, b] (limpiar_y_ordenar l) ∧
    (limpiar_y_ordenar l).Perm (l.filter (fun r => r.FECHA.isSome)) ∧
    (limpiar_y_ordenar l).Pairwise (fun r1 r2 => sortKey r1 ≤ sortKey r2) :=
  ⟨List.pair_sublist_mergeSort longKeyLE_trans longKeyLE_total
      (by simp [longKeyLE, hk]) hsub,
   List.mergeSort_perm _ _,
   (List.sorted_mergeSort longKeyLE_trans longKeyLE_total
       (l.filter (fun r => r.FECHA.isSome))).imp
     (fun h => by simpa [longKeyLE] using h)⟩

/-- C4: The output of `limpiar_y_ordenar` contains only records with a
present FECHA, has at most as many rows as the input, and is sorted by the
(ESTACION, MAGNITUD, FECHA) key. -/
theorem C4_limpiar_invariants (l : List LongRecord) :
    (∀ r ∈ limpiar_y_ordenar l, r.FECHA.isSome = true) ∧
    (limpiar_y_ordenar l).length ≤ l.length ∧
    (limpiar_y_ordenar l).Pairwise (fun r1 r2 => sortKey r1 ≤ sortKey r2) := by
  refine ⟨?_, ?_, ?_⟩
  · intro r hr
    exact (List.mem_filter.mp (List.mem_mergeSort.mp hr)).2
  · rw [limpiar_y_ordenar, List.length_mergeSort]
    exact List.length_filter_le _ _
  · have hp := List.sorted_mergeSort longKeyLE_trans longKeyLE_total (l.filter (fun r => r.FECHA.isSome))
    exact hp.imp (fun h => by simpa [longKeyLE] using h)

set_option maxRecDepth 40000 in
/-- Witness for C1: two records with equal keys (VALOR 10 and 20) keep their
relative order through `limpiar_y_ordenar`, in front of the station-2
record. -/
theorem C1_sort_stable_witness :
    (sortKey demoRecA = sortKey demoRecB ∧
      List.Sublist [demoRecA, demoRecB]
        (demoLongC1.filter (fun r => r.FECHA.isSome))) ∧
    List.Sublist [demoRecA, demoRecB] (limpiar_y_ordenar demoLongC1) ∧
    (limpiar_y_ordenar demoLongC1).map (fun r => (r.ESTACION, r.VALOR))
      = [(1, some 10), (1, some 20), (2, some 5)] :=
  ⟨⟨by with_unfolding_all decide, by with_unfolding_all decide⟩,
   (C1_sort_stable demoLongC1 demoRecA demoRecB
      (by with_unfolding_all decide) (by with_unfolding_all decide)).1,
   by with_unfolding_all decide⟩

set_option maxRecDepth 40000 in
/-- Witness for C4 at a concrete input. -/
theorem C4_limpiar_invariants_witness :
    (limpiar_y_ordenar demoLongC1).length ≤ demoLongC1.length ∧
    demoRecA.FECHA.isSome = true :=
  ⟨(C4_limpiar_invariants demoLongC1).2.1,
   (C4_limpiar_invariants demoLongC1).1 demoRecA
     (by with_unfolding_all decide)⟩

/-- C10: the day-column filter accepts any label of the letter D and two
digits, including the out-of-range labels D00 and D32-D99, yet every record
that survives the Cleaner has a DIA between 1 and 31, because an out-of-range
day can never form a valid calendar date. -/
theorem C10_day_labels_and_dia_bounds :
    (isDayCol "D00" = true ∧ isDayCol "D32" = true ∧ isDayCol "D99" = true ∧
      isDayCol "D1" = false ∧ isDayCol "D100" = false) ∧
    (∀ (t : FilteredTable) (r : LongRecord),
      r ∈ limpiar_y_ordenar (a_formato_largo t) →
      1 ≤ r.DIA ∧ r.DIA ≤ 31) := by
  refine ⟨⟨by decide, by decide, by decide, by decide, by decide⟩, ?_⟩
  intro t r hr
  have hrm := List.mem_mergeSort.mp hr
  have hmem := (List.mem_filter.mp hrm).1
  have hsome := (List.mem_filter.mp hrm).2
  obtain ⟨p, hp, hr2⟩ := List.mem_flatMap.mp hmem
  obtain ⟨row, hrow, rfl⟩ := List.mem_map.mp hr2
  simp only at hsome ⊢
  cases hy : row.ANO.toInt with
  | none => rw [hy] at hsome; simp [mkFecha] at hsome
  | some y =>
    cases hm : row.MES.toInt with
    | none => rw [hy, hm] at hsome; simp [mkFecha] at hsome
    | some m =>
      rw [hy, hm] at hsome
      simp only [mkFecha] at hsome
      split at hsome
      · rename_i hc
        exact ⟨hc.2.2.1, le_trans hc.2.2.2 (daysInMonth_le_31 y m)⟩
      · simp at hsome

set_option maxRecDepth 40000 in
/-- Witness for C10: in the demonstration table the D32 records are dropped
and the surviving records have DIA 1. -/
theorem C10_day_labels_and_dia_bounds_witness :
    (1 ≤ (1 : ℤ) ∧ (1 : ℤ) ≤ 31) ∧
    (limpiar_y_ordenar (a_formato_largo demoFT)).map (fun r => r.DIA)
      = [1, 1] := by
  constructor
  · have hmem : (⟨3, 1, some 2016, some 2, "D01", 1, none,
        some ⟨2016, 2, 1⟩⟩ : LongRecord)
        ∈ limpiar_y_ordenar (a_formato_largo demoFT) := by
      with_unfolding_all decide
    exact C10_day_labels_and_dia_bounds.2 demoFT _ hmem
  · with_unfolding_all decide

/-- C5: `resumen_estadistico` groups by (ESTACION, MAGNITUD); every group
present in the input yields a summary row whose `count` counts the
non-missing VALOR entries of the group and whose mean / squared-std / min /
max are taken over those entries; a group with zero non-missing values yields
count 0 and missing markers for every other statistic. -/
theorem C5_resumen_estadistico (l : List LongRecord) (e m : ℤ)
    (h : ∃ r ∈ l, r.ESTACION = e ∧ r.MAGNITUD = m) :
    ∃ s ∈ resumen_estadistico l,
      s.ESTACION = e ∧ s.MAGNITUD = m ∧
      s.count = (groupVals l (e, m)).length ∧
      s.promedio = meanOpt (groupVals l (e, m)) ∧
      s.desv_std_sq = stdSqOpt (groupVals l (e, m)) ∧
      s.vmin = (groupVals l (e, m)).min? ∧
      s.vmax = (groupVals l (e, m)).max? ∧
      (groupVals l (e, m) = [] →
        s.count = 0 ∧ s.promedio = none ∧ s.desv_std_sq = none ∧
        s.vmin = none ∧ s.vmax = none) := by
  have hk : (e, m) ∈ groupKeys l := by
    rw [groupKeys, List.mem_mergeSort, List.mem_dedup]
    obtain ⟨r, hr, he, hm⟩ := h
    exact List.mem_map.mpr ⟨r, hr, by simp [he, hm]⟩
  refine ⟨_, List.mem_map_of_mem _ hk, rfl, rfl, rfl, rfl, rfl, rfl, rfl, ?_⟩
  intro h0
  exact ⟨by simp [h0], by simp [meanOpt, h0], by simp [stdSqOpt, h0],
    by simp [h0], by simp [h0]⟩

set_option maxRecDepth 40000 in
/-- Witness for C5: the group (1, 1) with values [10, 20, 30] yields
count 3, mean 20, min 10, max 30 (squared std 100), and the all-missing
group (2, 5) yields count 0 and missing statistics. -/
theorem C5_resumen_estadistico_witness :
    (∃ s ∈ resumen_estadistico demoLongC5,
      s.ESTACION = 1 ∧ s.MAGNITUD = 1 ∧
      s.count = (groupVals demoLongC5 (1, 1)).length ∧
      s.promedio = meanOpt (groupVals demoLongC5 (1, 1)) ∧
      s.desv_std_sq = stdSqOpt (groupVals demoLongC5 (1, 1)) ∧
      s.vmin = (groupVals demoLongC5 (1, 1)).min? ∧
      s.vmax = (groupVals demoLongC5 (1, 1)).max? ∧
      (groupVals demoLongC5 (1, 1) = [] →
        s.count = 0 ∧ s.promedio = none ∧ s.desv_std_sq = none ∧
        s.vmin = none ∧ s.vmax = none)) ∧
    resumen_estadistico demoLongC5 =
      [⟨1, 1, 3, some 20, some 100, some 10, some 30⟩,
       ⟨2, 5, 0, none, none, none, none⟩] :=
  ⟨C5_resumen_estadistico demoLongC5 1 1
      ⟨⟨1, 1, some 2016, some 1, "D01", 1, some 10, some ⟨2016, 1, 1⟩⟩,
        by with_unfolding_all decide, rfl, rfl⟩,
   by with_unfolding_all decide⟩

/-- C9: the monthly pivot queries never raise on an empty match: when no
record passes the filter they return an empty matrix, and a (station, month)
group appears in the `medias_mensuales_por_contaminante_y_ano` matrix exactly
when some filtered record matches it — never as a zero-filled cell. -/
theorem C9_pivot_empty_behaviour (l : List LongRecord)
    (contaminante ano estacion : ℤ) (anoF : Option ℤ) :
    (l.filter (fun r => r.MAGNITUD = contaminante ∧ r.ANO = some ano) = [] →
      medias_mensuales_por_contaminante_y_ano l contaminante ano = []) ∧
    (∀ e mth, (∃ c, ((e, mth), c) ∈
        medias_mensuales_por_contaminante_y_ano l contaminante ano) ↔
      ∃ r ∈ l, r.MAGNITUD = contaminante ∧ r.ANO = some ano ∧
        r.ESTACION = e ∧ r.MES = some mth) ∧
    (l.filter (fun r => r.ESTACION = estacion) = [] →
      medidas_mensuales_por_estacion l estacion anoF = []) ∧
    ((l.filter (fun r => r.ESTACION = estacion)).filter
        (fun r => r.ANO = some ano) = [] →
      medidas_mensuales_por_estacion l estacion (some ano) = []) := by
  refine ⟨?_, ?_, ?_, ?_⟩
  · intro h
    unfold medias_mensuales_por_contaminante_y_ano
    rw [h]
    simp
  · intro e mth
    constructor
    · rintro ⟨c, hc⟩
      rw [medias_mensuales_por_contaminante_y_ano] at hc
      obtain ⟨k, hk, hke⟩ := List.mem_map.mp hc
      have hk1 : k = (e, mth) := congrArg Prod.fst hke
      subst hk1
      rw [List.mem_mergeSort, List.mem_dedup] at hk
      obtain ⟨r, hr, hmap⟩ := List.mem_filterMap.mp hk
      obtain ⟨mv, hmv, hpair⟩ := Option.map_eq_some'.mp hmap
      obtain ⟨he, hmth⟩ := Prod.mk.injEq .. ▸ hpair
      have hrf := List.mem_filter.mp hr
      have hcond := of_decide_eq_true hrf.2
      exact ⟨r, hrf.1, hcond.1, hcond.2, he, by rw [hmv, hmth]⟩
    · rintro ⟨r, hr, hmag, hano, hest, hmes⟩
      have hrt : r ∈ l.filter
          (fun r => decide (r.MAGNITUD = contaminante ∧ r.ANO = some ano)) :=
        List.mem_filter.mpr ⟨hr, by simp [hmag, hano]⟩
      have hk : (e, mth) ∈ (((l.filter (fun r =>
          decide (r.MAGNITUD = contaminante ∧ r.ANO = some ano))).filterMap
            (fun r => r.MES.map (fun mv => (r.ESTACION, mv)))).dedup).mergeSort
          (fun a b => decide (toLex a ≤ toLex b)) := by
        rw [List.mem_mergeSort, List.mem_dedup]
        exact List.mem_filterMap.mpr ⟨r, hrt, by rw [hmes, hest]; rfl⟩
      exact ⟨_, List.mem_map_of_mem _ hk⟩
  · intro h
    cases anoF with
    | none =>
      unfold medidas_mensuales_por_estacion
      rw [h]
      simp
    | some a =>
      unfold medidas_mensuales_por_estacion
      rw [h]
      simp
  · intro h
    unfold medidas_mensuales_por_estacion
    simp only [h]
    simp

set_option maxRecDepth 40000 in
/-- Witness for C9: a pollutant/year with no matches yields an empty matrix;
the station-1 January group is present, the station-2 one is not zero-filled
but simply absent from the MAGNITUD-1 matrix. -/
theorem C9_pivot_empty_behaviour_witness :
    medias_mensuales_por_contaminante_y_ano demoLongC5 9 2016 = [] ∧
    medidas_mensuales_por_estacion demoLongC5 99 none = [] ∧
    medias_mensuales_por_contaminante_y_ano demoLongC5 1 2016 =
      [((1, 1), some 20)] :=
  ⟨(C9_pivot_empty_behaviour demoLongC5 9 2016 99 none).1
      (by with_unfolding_all decide),
   (C9_pivot_empty_behaviour demoLongC5 1 2016 99 none).2.2.1
      (by with_unfolding_all decide),
   by with_unfolding_all decide⟩

end Emisiones
